import Mathlib

/-!
Verification of the marketplace-monitor orchestration engine
(`src/marketplace_monitor/monitor.py` and `src/marketplace_monitor/parsers/registry.py`),
as a shallow embedding in Lean 4.

Modelling conventions:
* Python `set[str]` becomes `Finset String`; `dict` updates become replace-or-append
  on an association list, preserving the dict's update semantics.
* Wall-clock values (`datetime.now()`, `time.time()` durations) are abstracted to `Nat`
  timestamps passed in by the caller; the `duration` and `check_time` fields of
  `MonitorResult`, which are pure wall-clock measurements, are not modelled.
* A parser's `parse` call either returns a `ParseResult` or raises; this is modelled by
  `ParseOutcome`.  The `try/except` in `_monitor_single_url` makes the Lean function
  total: an exception is converted to a failed result, exactly as in the source.
* Functions that can raise to their caller (`check_single_site` raising `ValueError`)
  return `Except String _`.  `start_monitoring` / `stop_monitoring` are given the same
  `Except` envelope so that "raises" versus "returns normally" is expressible; the
  source never raises on either path.
-/

/-- Mirror of `ParseResult` (`parsers/base.py`, lines 12-22).  The `metadata`
dictionary (arbitrary Python values, unused by the engine) is not modelled. -/
structure ParseResult where
  url : String
  product_name : Option String := none
  available_sizes : Finset String := ∅
  price : Option String := none
  in_stock : Bool := false
  error : Option String := none
deriving DecidableEq

/-- Mirror of `MonitorResult` (`monitor.py`, lines 18-28), minus the wall-clock
`check_time` and `duration` fields. -/
structure MonitorResult where
  site_name : String
  url : String
  success : Bool
  result : Option ParseResult := none
  error : Option String := none
deriving DecidableEq

/-- Mirror of `MonitorStats` (`monitor.py`, lines 31-41); times are abstract `Nat`. -/
structure MonitorStats where
  total_checks : Nat := 0
  successful_checks : Nat := 0
  failed_checks : Nat := 0
  sizes_found : Nat := 0
  notifications_sent : Nat := 0
  start_time : Nat := 0
  last_check_time : Option Nat := none
deriving DecidableEq

/-- The fields of `SiteConfig` consumed by the engine (`config/config.py`):
name, parser id, urls, target sizes, enabled flag.  `headers`/`cookies` only feed
the parser construction cache and are not modelled. -/
structure SiteConfig where
  name : String
  parser : String
  urls : List String
  sizes : List String
  enabled : Bool := true
deriving DecidableEq

/-- The fields of the loaded `Config` consumed by the engine. -/
structure Config where
  sites : List SiteConfig
  max_concurrent_checks : Nat := 5
  global_check_interval : Nat := 300

/-- Outcome of a parser's `parse(url, sizes)` call: a returned `ParseResult`,
or an exception whose `str(e)` is the carried message. -/
inductive ParseOutcome where
  | ok (r : ParseResult)
  | raises (msg : String)

/-- A parser behaviour: what `parser.parse(url, target_sizes)` does. -/
def ParserFun : Type := String → List String → ParseOutcome

/-- The registry resolution `registry.get_parser(name, config)`
(`parsers/registry.py`, lines 30-69): `none` when the id is not registered.
(Instance construction of the four registered parser classes performs no fallible
work in scope, so the construction-failure path is not modelled.) -/
def Registry : Type := String → Option ParserFun

/-- Outcome of `notifier.send_notification(message)`: a returned boolean, or a
raised exception (absorbed by `asyncio.gather(..., return_exceptions=True)`). -/
inductive SendOutcome where
  | ok (b : Bool)
  | raises (msg : String)
deriving DecidableEq

/-- A configured notifier: its `is_enabled()` flag and the combined behaviour of
`create_message_from_result` followed by `send_notification`. -/
structure Notifier where
  name : String
  enabled : Bool
  send : String × ParseResult → SendOutcome

/-- `self._last_finds : Dict[str, Set[str]]` (`monitor.py`, line 71). -/
def DedupMap : Type := List (String × Finset String)

/-- `self._last_finds.get(url, set())`: lookup with empty-set default. -/
def dget (m : DedupMap) (k : String) : Finset String :=
  match m with
  | [] => ∅
  | (k', v) :: rest => if k' = k then v else dget rest k

/-- `self._last_finds[url] = v`: dict assignment (replace in place, else append). -/
def dset (m : DedupMap) (k : String) (v : Finset String) : DedupMap :=
  match m with
  | [] => [(k, v)]
  | (k', v') :: rest => if k' = k then (k', v) :: rest else (k', v') :: dset rest k v

/-- The whole engine state owned by a `MarketplaceMonitor` instance:
configuration, stats, the `running` flag, the stop event, the dedup map and the
configured notifiers. -/
structure EngineState where
  config : Config
  stats : MonitorStats
  running : Bool := false
  stopEventSet : Bool := false
  lastFinds : DedupMap := []
  notifiers : List Notifier := []

/-- The result produced by one `_monitor_single_url(site, url)` call
(`monitor.py`, lines 222-259), which does not depend on the stats: resolve the
parser (`Parser not found` failure if unregistered), run `parse`, convert an
exception into a failed result, and otherwise report success iff the parse
result carries no error (line 245). -/
def checkOutcome (reg : Registry) (site : SiteConfig) (url : String) : MonitorResult :=
  match reg site.parser with
  | none =>
      { site_name := site.name, url := url, success := false,
        error := some ("Parser not found: " ++ site.parser) }
  | some parse =>
      match parse url site.sizes with
      | .raises msg =>
          { site_name := site.name, url := url, success := false, error := some msg }
      | .ok r =>
          { site_name := site.name, url := url, success := r.error.isNone,
            result := some r, error := r.error }

/-- `_monitor_single_url` (`monitor.py`, lines 209-259): increments
`stats.total_checks` (line 220) and produces the check's `MonitorResult`.
Total by construction: the body's `try/except` converts every parser exception
into a failed result, so the coroutine itself never raises. -/
def monitor_single_url (reg : Registry) (site : SiteConfig) (url : String)
    (stats : MonitorStats) : MonitorStats × MonitorResult :=
  ({ stats with total_checks := stats.total_checks + 1 }, checkOutcome reg site url)

/-- Sequential execution of a cycle's check tasks (the bodies created at
`monitor.py` lines 162-169 contain no `await`, so the event loop runs them one
after another in creation order), threading the stats. -/
def runChecks (reg : Registry) (tasks : List (SiteConfig × String))
    (stats : MonitorStats) : MonitorStats × List MonitorResult :=
  tasks.foldl
    (fun acc t =>
      let out := monitor_single_url reg t.1 t.2 acc.1
      (out.1, acc.2 ++ [out.2]))
    (stats, [])

/-- The per-result stats loop of `_run_monitoring_cycle` (`monitor.py`,
lines 185-195): count each result as a success or a failure.  (The
`isinstance(result, Exception)` arm is unreachable: `_monitor_single_url`
never raises, see `monitor_single_url`.) -/
def tallyResults (results : List MonitorResult) (stats : MonitorStats) : MonitorStats :=
  results.foldl
    (fun s r =>
      if r.success then { s with successful_checks := s.successful_checks + 1 }
      else { s with failed_checks := s.failed_checks + 1 })
    stats

/-- `new_sizes = current_sizes - previous_sizes` (`monitor.py`, lines 274-277). -/
def newSizes (m : DedupMap) (url : String) (current : Finset String) : Finset String :=
  current \ dget m url

/-- `_send_notifications` (`monitor.py`, lines 301-326): no-op when no notifiers
are configured; otherwise dispatch to every notifier whose `is_enabled()` is true
and add the number of `True` returns to `notifications_sent`.  Returns the new
stats together with the names of the notifiers to which delivery was attempted. -/
def sendNotifications (notifiers : List Notifier) (ev : String × ParseResult)
    (stats : MonitorStats) : MonitorStats × List String :=
  if notifiers.isEmpty then (stats, [])
  else
    let attempted := notifiers.filter (fun n => n.enabled)
    if attempted.isEmpty then (stats, [])
    else
      let successCount := attempted.countP
        (fun n => match n.send ev with | .ok true => true | _ => false)
      ({ stats with notifications_sent := stats.notifications_sent + successCount },
       attempted.map (fun n => n.name))

/-- One iteration of the loop in `_process_results_and_notify` (`monitor.py`,
lines 267-299).  The accumulator is (dedup map, stats, notification events so
far); an event is the `(site_name, ParseResult)` pair handed to
`_send_notifications`, whose `available_sizes` was overwritten with `new_sizes`
(line 290). -/
def processOne (notifiers : List Notifier)
    (acc : DedupMap × MonitorStats × List (String × ParseResult))
    (r : MonitorResult) : DedupMap × MonitorStats × List (String × ParseResult) :=
  match r.result with
  | none => acc
  | some pr =>
      if pr.available_sizes = ∅ then acc
      else
        let m := acc.1
        let current := pr.available_sizes
        let ns := newSizes m r.url current
        if ns = ∅ then
          (dset m r.url current, acc.2.1, acc.2.2)
        else
          let stats := { acc.2.1 with sizes_found := acc.2.1.sizes_found + ns.card }
          let ev := (r.site_name, { pr with available_sizes := ns })
          let stats := (sendNotifications notifiers ev stats).1
          (dset m r.url current, stats, acc.2.2 ++ [ev])

/-- `_process_results_and_notify` (`monitor.py`, lines 261-299), applied to the
cycle's successful results. -/
def processResultsAndNotify (notifiers : List Notifier) (results : List MonitorResult)
    (m : DedupMap) (stats : MonitorStats) :
    DedupMap × MonitorStats × List (String × ParseResult) :=
  results.foldl (processOne notifiers) (m, stats, [])

/-- The `(site, url)` tasks created for a cycle (`monitor.py`, lines 156-169):
one per URL of every enabled site, in configuration order. -/
def enabledTasks (st : EngineState) : List (SiteConfig × String) :=
  (st.config.sites.filter (fun s => s.enabled)).flatMap (fun s => s.urls.map (fun u => (s, u)))

/-- The list of check results a cycle produces (independent of the stats). -/
def cycleChecks (reg : Registry) (st : EngineState) : List MonitorResult :=
  (enabledTasks st).map (fun t => checkOutcome reg t.1 t.2)

/-- `_run_monitoring_cycle` (`monitor.py`, lines 151-207): early return when no
site is enabled; otherwise run every check, tally successes/failures, hand the
successful results to the diff engine, and stamp `last_check_time`.  Returns the
new engine state and the notification events emitted by the diff engine. -/
def runMonitoringCycle (reg : Registry) (now : Nat) (st : EngineState) :
    EngineState × List (String × ParseResult) :=
  let enabled := st.config.sites.filter (fun s => s.enabled)
  if enabled.isEmpty then (st, [])
  else
    let tasks := enabled.flatMap (fun s => s.urls.map (fun u => (s, u)))
    let out := runChecks reg tasks st.stats
    let stats2 := tallyResults out.2 out.1
    let successful := out.2.filter (fun r => r.success)
    let proc := processResultsAndNotify st.notifiers successful st.lastFinds stats2
    ({ st with
        stats := { proc.2.1 with last_check_time := some now },
        lastFinds := proc.1 },
     proc.2.2)

/-- The synchronous entry of `start_monitoring` (`monitor.py`, lines 118-130),
up to the first loop iteration: on a running engine, log a warning and return
(`.ok (st, false)`, no loop begun); otherwise set `running`, clear the stop
event, reset the stats (fresh `MonitorStats` with `start_time = now`) and begin
the loop (`.ok (_, true)`).  Neither path raises. -/
def start_monitoring_entry (st : EngineState) (now : Nat) :
    Except String (EngineState × Bool) :=
  if st.running then .ok (st, false)
  else
    let st' : EngineState :=
      { st with running := true, stopEventSet := false, stats := { start_time := now } }
    .ok (st', true)

/-- `stop_monitoring` (`monitor.py`, lines 328-336): on a non-running engine,
log a warning and return (`.ok (st, false)`); otherwise clear `running` and set
the stop event.  Neither path raises. -/
def stop_monitoring (st : EngineState) : Except String (EngineState × Bool) :=
  if st.running then
    .ok ({ st with running := false, stopEventSet := true }, true)
  else .ok (st, false)

/-- `check_single_site` (`monitor.py`, lines 338-361): first site with the given
name, `ValueError` if none, then `_monitor_single_url` for each of its URLs in
order; the results are returned without touching the diff engine or notifiers. -/
def check_single_site (reg : Registry) (name : String) (st : EngineState) :
    Except String (EngineState × List MonitorResult) :=
  match st.config.sites.find? (fun s => s.name == name) with
  | none => .error ("Site not found: " ++ name)
  | some site =>
      let out := runChecks reg (site.urls.map (fun u => (site, u))) st.stats
      .ok ({ st with stats := out.1 }, out.2)

/-- The available-size set of the last result in the list for `url` whose check
carried a non-empty `available_sizes` set, if any.  This is the value the diff
engine actually leaves in the dedup map (later results win). -/
def lastNonEmptySizes (results : List MonitorResult) (url : String) :
    Option (Finset String) :=
  match results with
  | [] => none
  | r :: rest =>
      match lastNonEmptySizes rest url with
      | some s => some s
      | none =>
          match r.result with
          | some pr =>
              if r.url = url ∧ pr.available_sizes ≠ ∅ then some pr.available_sizes
              else none
          | none => none

/-!
## Event-loop model for the cycle's task scheduling

`_run_monitoring_cycle` (`monitor.py`, lines 162-182) first calls
`asyncio.create_task(self._monitor_single_url(site, url))` for every (site, url)
pair, which schedules each coroutine to start at the event loop's next pass —
before the semaphore is even created.  It then builds
`asyncio.Semaphore(max_concurrent_checks)` and awaits
`asyncio.gather(*[limited_monitor(task) for task in tasks])`, where
`limited_monitor` acquires the semaphore and merely `await`s an
already-scheduled task.  `asyncio` is single-threaded cooperative scheduling
with a FIFO ready queue, and the body of `_monitor_single_url` contains no
`await`, so each monitor task runs atomically (including its extractor call) at
its first scheduling.  The model below embeds exactly this structure:
`AStep.runBody i` is the synchronous body of monitor task `i` (performing the
extractor call), and a `limitedTask` is `acquire; await task i; release`.
Tasks are queued in creation order: all monitor tasks first, then the
gather-wrapped `limited_monitor` tasks.
-/

/-- One atomic step of a scheduled coroutine. -/
inductive AStep where
  | runBody (i : Nat)
  | acquireSem
  | awaitTask (i : Nat)
  | releaseSem
deriving DecidableEq

/-- A scheduled asyncio task: its id and remaining steps. -/
structure ATask where
  tid : Nat
  steps : List AStep
deriving DecidableEq

/-- Observable events: an extractor invocation starting/finishing, and the
semaphore being acquired/released. -/
inductive Ev where
  | extractorStart (i : Nat)
  | extractorEnd (i : Nat)
  | semAcquire (tid : Nat)
  | semRelease (tid : Nat)
deriving DecidableEq

/-- Event-loop state: FIFO ready queue, semaphore waiters, tasks waiting on
another task, finished task ids, free semaphore slots, and the event trace. -/
structure LoopState where
  ready : List ATask
  semWaiters : List ATask
  taskWaiters : List (Nat × ATask)
  doneTids : List Nat
  semAvail : Nat
  trace : List Ev

/-- Run one task until it blocks (on the semaphore or on an unfinished task) or
finishes; a finishing task wakes every task awaiting it. -/
def runTask (st : LoopState) (tid : Nat) : List AStep → LoopState
  | [] =>
      let woken := (st.taskWaiters.filter (fun p => p.1 = tid)).map (fun p => p.2)
      { st with doneTids := tid :: st.doneTids,
                taskWaiters := st.taskWaiters.filter (fun p => p.1 ≠ tid),
                ready := st.ready ++ woken }
  | step :: rest =>
      match step with
      | .runBody i =>
          runTask { st with trace := st.trace ++ [.extractorStart i, .extractorEnd i] } tid rest
      | .acquireSem =>
          if 0 < st.semAvail then
            runTask { st with semAvail := st.semAvail - 1,
                              trace := st.trace ++ [.semAcquire tid] } tid rest
          else
            { st with semWaiters := st.semWaiters ++ [⟨tid, AStep.acquireSem :: rest⟩] }
      | .awaitTask i =>
          if i ∈ st.doneTids then runTask st tid rest
          else { st with taskWaiters := st.taskWaiters ++ [(i, ⟨tid, rest⟩)] }
      | .releaseSem =>
          let st' : LoopState :=
            { st with semAvail := st.semAvail + 1,
                      trace := st.trace ++ [Ev.semRelease tid] }
          match st'.semWaiters with
          | [] => runTask st' tid rest
          | w :: ws => runTask { st' with semWaiters := ws, ready := st'.ready ++ [w] } tid rest

/-- The event loop: repeatedly run the head of the FIFO ready queue.  `fuel`
bounds the number of scheduling turns (every concrete run below finishes well
within it). -/
def runLoop : Nat → LoopState → LoopState
  | 0, st => st
  | fuel + 1, st =>
      match st.ready with
      | [] => st
      | t :: rest => runLoop fuel (runTask { st with ready := rest } t.tid t.steps)

/-- Monitor task `i`: the no-await body of `_monitor_single_url` (lines 209-259),
containing the extractor call. -/
def monitorTask (i : Nat) : ATask := ⟨i, [.runBody i]⟩

/-- `limited_monitor(task_i)` (lines 174-176) as wrapped in a task by
`asyncio.gather`: `async with semaphore: return await task_i`. -/
def limitedTask (n i : Nat) : ATask := ⟨n + i, [.acquireSem, .awaitTask i, .releaseSem]⟩

/-- The full event trace of one monitoring cycle's dispatch with `n` (site, url)
tasks and `max_concurrent_checks = cap`: monitor tasks `0..n-1` are created
first (lines 162-169), then the gather-wrapped limited tasks (lines 179-182). -/
def cycleLoopTrace (cap n : Nat) : List Ev :=
  (runLoop (8 * n + 8)
    { ready := (List.range n).map monitorTask ++ (List.range n).map (limitedTask n),
      semWaiters := [], taskWaiters := [], doneTids := [], semAvail := cap,
      trace := [] }).trace

/-!
## Concrete fixtures used by counterexamples and witnesses
-/

/-- A single enabled site with one URL, extractor id `p`, targets 9 and 10. -/
def exSite : SiteConfig :=
  { name := "s", parser := "p", urls := ["u"], sizes := ["9", "10"], enabled := true }

/-- A registry whose parser `p` always succeeds with the given size set. -/
def regOf (sz : Finset String) : Registry :=
  fun pid =>
    if pid = "p" then some (fun u _ => ParseOutcome.ok { url := u, available_sizes := sz })
    else none

/-- Fresh engine state monitoring `exSite`, no notifiers, empty dedup map. -/
def st0 : EngineState :=
  { config := { sites := [exSite] }, stats := {} }

/-- State after cycle 1 of the disappearance scenario (sizes 9 available). -/
def stA1 : EngineState := (runMonitoringCycle (regOf {"9"}) 1 st0).1

/-- State after cycle 2 of the disappearance scenario (no size available). -/
def stA2 : EngineState := (runMonitoringCycle (regOf ∅) 2 stA1).1

/-- State after cycle 1 of the no-duplicate scenario (size 9 available). -/
def stB1 : EngineState := (runMonitoringCycle (regOf {"9"}) 1 st0).1

/-- State after cycle 2 of the no-duplicate scenario (sizes 9 and 10 available). -/
def stB2 : EngineState := (runMonitoringCycle (regOf {"9", "10"}) 2 stB1).1

/-- Engine state whose dedup map already records size 9 for url `u`. -/
def stC0 : EngineState :=
  { config := { sites := [exSite] }, stats := {}, lastFinds := [("u", {"9"})] }

/-- A parser that always raises with message `boom`. -/
def raisingParser : ParserFun := fun _ _ => ParseOutcome.raises "boom"

/-- A registry whose parser `p` always raises. -/
def wReg : Registry := fun pid => if pid = "p" then some raisingParser else none

/-- An engine state that is in the running state. -/
def stRun : EngineState := { st0 with running := true }

/-- Engine state whose only site is disabled. -/
def stD0 : EngineState :=
  { config := { sites := [{ exSite with enabled := false }] }, stats := {} }

/-! ## Helper lemmas -/

theorem dget_dset_self (m : DedupMap) (k : String) (v : Finset String) :
    dget (dset m k v) k = v := by
  induction m with
  | nil => simp [dset, dget]
  | cons p rest ih =>
      obtain ⟨k', v'⟩ := p
      by_cases h : k' = k
      · simp [dset, dget, h]
      · simp [dset, dget, h, ih]

theorem dget_dset_ne (m : DedupMap) (k u : String) (v : Finset String) (h : k ≠ u) :
    dget (dset m k v) u = dget m u := by
  induction m with
  | nil => simp [dset, dget, h]
  | cons p rest ih =>
      obtain ⟨k', v'⟩ := p
      by_cases h2 : k' = k
      · subst h2
        simp [dset, dget, h]
      · simp [dset, dget, h2, ih]

theorem runChecks_go (reg : Registry) :
    ∀ (tasks : List (SiteConfig × String)) (stats : MonitorStats) (acc : List MonitorResult),
      tasks.foldl
        (fun acc t =>
          let out := monitor_single_url reg t.1 t.2 acc.1
          (out.1, acc.2 ++ [out.2]))
        (stats, acc)
      = ({ stats with total_checks := stats.total_checks + tasks.length },
         acc ++ tasks.map (fun t => checkOutcome reg t.1 t.2)) := by
  intro tasks
  induction tasks with
  | nil => intro stats acc; simp
  | cons t ts ih =>
      intro stats acc
      rw [List.foldl_cons, ih]
      simp [monitor_single_url, List.append_assoc]
      omega

theorem runChecks_eq (reg : Registry) (tasks : List (SiteConfig × String))
    (stats : MonitorStats) :
    runChecks reg tasks stats
      = ({ stats with total_checks := stats.total_checks + tasks.length },
         tasks.map (fun t => checkOutcome reg t.1 t.2)) := by
  rw [runChecks, runChecks_go]
  simp

theorem tallyResults_eq :
    ∀ (results : List MonitorResult) (stats : MonitorStats),
      tallyResults results stats
        = { stats with
            successful_checks := stats.successful_checks + results.countP (fun r => r.success),
            failed_checks := stats.failed_checks + results.countP (fun r => !r.success) } := by
  intro results
  induction results with
  | nil => intro stats; simp [tallyResults]
  | cons r rest ih =>
      intro stats
      have hstep : tallyResults (r :: rest) stats
          = tallyResults rest
              (if r.success then { stats with successful_checks := stats.successful_checks + 1 }
               else { stats with failed_checks := stats.failed_checks + 1 }) := rfl
      rw [hstep, ih]
      by_cases h : r.success <;> simp [h, List.countP_cons] <;> omega

theorem sendNotifications_stats (notifiers : List Notifier) (ev : String × ParseResult)
    (stats : MonitorStats) :
    ((sendNotifications notifiers ev stats).1).successful_checks = stats.successful_checks
    ∧ ((sendNotifications notifiers ev stats).1).failed_checks = stats.failed_checks
    ∧ ((sendNotifications notifiers ev stats).1).total_checks = stats.total_checks
    ∧ ((sendNotifications notifiers ev stats).1).sizes_found = stats.sizes_found := by
  rw [sendNotifications]
  by_cases h1 : notifiers.isEmpty
  · simp [h1]
  · by_cases h2 : (notifiers.filter (fun n => n.enabled)).isEmpty
    · simp [h1, h2]
    · simp [h1, h2]

theorem processOne_stats (nf : List Notifier)
    (acc : DedupMap × MonitorStats × List (String × ParseResult)) (r : MonitorResult) :
    ((processOne nf acc r).2.1.successful_checks = acc.2.1.successful_checks
    ∧ (processOne nf acc r).2.1.failed_checks = acc.2.1.failed_checks
    ∧ (processOne nf acc r).2.1.total_checks = acc.2.1.total_checks) := by
  cases hres : r.result with
  | none => simp [processOne, hres]
  | some pr =>
      by_cases h1 : pr.available_sizes = ∅
      · simp [processOne, hres, h1]
      · by_cases h2 : newSizes acc.1 r.url pr.available_sizes = ∅
        · simp [processOne, hres, h1, h2]
        · have hs := sendNotifications_stats nf
            (r.site_name, { pr with available_sizes := newSizes acc.1 r.url pr.available_sizes })
            { acc.2.1 with sizes_found := acc.2.1.sizes_found + (newSizes acc.1 r.url pr.available_sizes).card }
          simp only [processOne, hres, h1, h2, if_neg, if_pos]
          simp [h1, h2, hs.1, hs.2.1, hs.2.2.1]

theorem processFold_stats (nf : List Notifier) :
    ∀ (results : List MonitorResult) (acc : DedupMap × MonitorStats × List (String × ParseResult)),
      ((results.foldl (processOne nf) acc).2.1.successful_checks = acc.2.1.successful_checks
      ∧ (results.foldl (processOne nf) acc).2.1.failed_checks = acc.2.1.failed_checks
      ∧ (results.foldl (processOne nf) acc).2.1.total_checks = acc.2.1.total_checks) := by
  intro results
  induction results with
  | nil => intro acc; simp
  | cons r rest ih =>
      intro acc
      rw [List.foldl_cons]
      have h1 := processOne_stats nf acc r
      have h2 := ih (processOne nf acc r)
      exact ⟨h2.1.trans h1.1, h2.2.1.trans h1.2.1, h2.2.2.trans h1.2.2⟩

theorem processFold_dget (nf : List Notifier) :
    ∀ (results : List MonitorResult)
      (acc : DedupMap × MonitorStats × List (String × ParseResult)) (url : String),
      dget ((results.foldl (processOne nf) acc).1) url
        = (lastNonEmptySizes results url).getD (dget acc.1 url) := by
  intro results
  induction results with
  | nil => intro acc url; simp [lastNonEmptySizes]
  | cons r rest ih =>
      intro acc url
      rw [List.foldl_cons, ih]
      cases hres : r.result with
      | none =>
          have hskip : processOne nf acc r = acc := by
            simp [processOne, hres]
          rw [hskip]
          cases h2 : lastNonEmptySizes rest url <;>
            simp [lastNonEmptySizes, hres, h2]
      | some pr =>
          by_cases h1 : pr.available_sizes = ∅
          · have hskip : processOne nf acc r = acc := by
              simp [processOne, hres, h1]
            rw [hskip]
            cases h2 : lastNonEmptySizes rest url <;>
              simp [lastNonEmptySizes, hres, h2, h1]
          · have hmap : (processOne nf acc r).1 = dset acc.1 r.url pr.available_sizes := by
              by_cases h2 : newSizes acc.1 r.url pr.available_sizes = ∅ <;>
                simp [processOne, hres, h1, h2]
            rw [hmap]
            by_cases hu : r.url = url
            · subst hu
              rw [dget_dset_self]
              cases h2 : lastNonEmptySizes rest r.url <;>
                simp [lastNonEmptySizes, hres, h2, h1]
            · rw [dget_dset_ne _ _ _ _ hu]
              cases h2 : lastNonEmptySizes rest url <;>
                simp [lastNonEmptySizes, hres, h2, h1, hu]

theorem cycle_successful_checks (reg : Registry) (now : Nat) (st : EngineState) :
    (runMonitoringCycle reg now st).1.stats.successful_checks
      = st.stats.successful_checks + (cycleChecks reg st).countP (fun r => r.success) := by
  by_cases h : (st.config.sites.filter (fun s => s.enabled)).isEmpty
  · have hnil : st.config.sites.filter (fun s => s.enabled) = [] :=
      List.isEmpty_iff.mp h
    simp [runMonitoringCycle, h, cycleChecks, enabledTasks, hnil]
  · simp only [runMonitoringCycle, h, if_neg, Bool.false_eq_true, not_false_iff]
    rw [runChecks_eq]
    simp only [processResultsAndNotify]
    change (List.foldl (processOne st.notifiers)
        (st.lastFinds,
         tallyResults (cycleChecks reg st)
           { st.stats with total_checks := st.stats.total_checks + (enabledTasks st).length },
         [])
        ((cycleChecks reg st).filter (fun r => r.success))).2.1.successful_checks
      = st.stats.successful_checks + (cycleChecks reg st).countP (fun r => r.success)
    rw [(processFold_stats st.notifiers _ _).1, tallyResults_eq]

theorem cycle_failed_checks (reg : Registry) (now : Nat) (st : EngineState) :
    (runMonitoringCycle reg now st).1.stats.failed_checks
      = st.stats.failed_checks + (cycleChecks reg st).countP (fun r => !r.success) := by
  by_cases h : (st.config.sites.filter (fun s => s.enabled)).isEmpty
  · have hnil : st.config.sites.filter (fun s => s.enabled) = [] :=
      List.isEmpty_iff.mp h
    simp [runMonitoringCycle, h, cycleChecks, enabledTasks, hnil]
  · simp only [runMonitoringCycle, h, if_neg, Bool.false_eq_true, not_false_iff]
    rw [runChecks_eq]
    simp only [processResultsAndNotify]
    change (List.foldl (processOne st.notifiers)
        (st.lastFinds,
         tallyResults (cycleChecks reg st)
           { st.stats with total_checks := st.stats.total_checks + (enabledTasks st).length },
         [])
        ((cycleChecks reg st).filter (fun r => r.success))).2.1.failed_checks
      = st.stats.failed_checks + (cycleChecks reg st).countP (fun r => !r.success)
    rw [(processFold_stats st.notifiers _ _).2.1, tallyResults_eq]

theorem cycle_dget (reg : Registry) (now : Nat) (st : EngineState) (url : String) :
    dget (runMonitoringCycle reg now st).1.lastFinds url
      = (lastNonEmptySizes ((cycleChecks reg st).filter (fun r => r.success)) url).getD
          (dget st.lastFinds url) := by
  by_cases h : (st.config.sites.filter (fun s => s.enabled)).isEmpty
  · have hnil : st.config.sites.filter (fun s => s.enabled) = [] :=
      List.isEmpty_iff.mp h
    simp [runMonitoringCycle, h, cycleChecks, enabledTasks, hnil, lastNonEmptySizes]
  · simp only [runMonitoringCycle, h, if_neg, Bool.false_eq_true, not_false_iff]
    rw [runChecks_eq]
    simp only [processResultsAndNotify]
    change dget (List.foldl (processOne st.notifiers)
        (st.lastFinds,
         tallyResults (cycleChecks reg st)
           { st.stats with total_checks := st.stats.total_checks + (enabledTasks st).length },
         [])
        ((cycleChecks reg st).filter (fun r => r.success))).1 url
      = (lastNonEmptySizes ((cycleChecks reg st).filter (fun r => r.success)) url).getD
          (dget st.lastFinds url)
    rw [processFold_dget]

/-!
## Claim theorems
-/

/-- Claim C1, counterexample: a cycle whose single check succeeds with an empty
available-size set leaves the dedup entry at its previous value `{9}` instead of
setting it to the cycle's (empty) set, refuting the claim's "including when the
set is empty" part. -/
theorem dedup_not_cleared_on_empty_success :
    (runMonitoringCycle (regOf ∅) 1 stC0).1.stats.successful_checks = 1
    ∧ dget (runMonitoringCycle (regOf ∅) 1 stC0).1.lastFinds "u" = {"9"}
    ∧ ({"9"} : Finset String) ≠ (∅ : Finset String) := by decide

/-- Claim C1 (amended): after a cycle, the dedup entry of a URL equals the
available-size set of the last successful check of that URL in the cycle whose
set was non-empty, and is unchanged when the URL's checks failed or succeeded
with an empty set. -/
theorem dedup_entry_after_cycle (reg : Registry) (now : Nat) (st : EngineState)
    (url : String) :
    dget (runMonitoringCycle reg now st).1.lastFinds url
      = (lastNonEmptySizes ((cycleChecks reg st).filter (fun r => r.success)) url).getD
          (dget st.lastFinds url) :=
  cycle_dget reg now st url

/-- Claim C2, counterexample: in the size-set sequence 9, empty, 9, the third
cycle emits no notification (the claim asserts it re-notifies size 9), because
the second cycle left the dedup entry at `{9}` instead of clearing it. -/
theorem no_renotification_after_disappearance :
    (runMonitoringCycle (regOf {"9"}) 3 stA2).2 = []
    ∧ dget stA2.lastFinds "u" = {"9"} := by decide

/-- Claim C2 (amended): for the successful-cycle size sets 9, then empty, then
9 again, the second cycle emits no notification and leaves the dedup entry at
`{9}` (it is not cleared, because the diff engine skips results with an empty
set), and the third cycle also emits no notification. -/
theorem disappearance_sequence_behavior :
    (runMonitoringCycle (regOf ∅) 2 stA1).2 = []
    ∧ dget stA2.lastFinds "u" = {"9"}
    ∧ (runMonitoringCycle (regOf {"9"}) 3 stA2).2 = [] := by decide

/-- Claim C3: a size already in the dedup entry is never among the newly
notified sizes, and on the concrete sequence 9, then 9 and 10, then 10, the
second cycle emits exactly one notification carrying only size 10 and the third
cycle emits none. -/
theorem no_duplicate_notification_trace :
    (∀ (m : DedupMap) (url : String) (current : Finset String),
        newSizes m url current ∩ dget m url = ∅)
    ∧ (runMonitoringCycle (regOf {"9", "10"}) 2 stB1).2
        = [("s", { url := "u", available_sizes := {"10"} })]
    ∧ (runMonitoringCycle (regOf {"10"}) 3 stB2).2 = [] := by
  refine ⟨?_, by decide, by decide⟩
  intro m url current
  simp [newSizes, Finset.sdiff_inter_self]

/-- Claim C4 (evaluating the code at the failing input): with a concurrency cap
of 2 and 5 dispatched tasks, the event-loop trace of the cycle shows all five
extractor calls running to completion before the semaphore is ever acquired or
released; in particular the third extractor call (beyond the cap) starts with
no preceding semaphore release, contradicting "tasks beyond the cap do not
begin their extractor call until a running task completes and frees a slot". -/
theorem semaphore_never_gates_extractor_calls :
    cycleLoopTrace 2 5 =
      [Ev.extractorStart 0, Ev.extractorEnd 0, Ev.extractorStart 1, Ev.extractorEnd 1,
       Ev.extractorStart 2, Ev.extractorEnd 2, Ev.extractorStart 3, Ev.extractorEnd 3,
       Ev.extractorStart 4, Ev.extractorEnd 4,
       Ev.semAcquire 5, Ev.semRelease 5, Ev.semAcquire 6, Ev.semRelease 6,
       Ev.semAcquire 7, Ev.semRelease 7, Ev.semAcquire 8, Ev.semRelease 8,
       Ev.semAcquire 9, Ev.semRelease 9]
    ∧ ((cycleLoopTrace 2 5).takeWhile (fun e => e ≠ Ev.extractorStart 2)).all
        (fun e => match e with | .semRelease _ => false | _ => true) = true
    ∧ ((cycleLoopTrace 2 5).takeWhile (fun e => e ≠ Ev.extractorStart 2)).all
        (fun e => match e with | .semAcquire _ => false | _ => true) = true := by
  refine ⟨by decide, by decide, by decide⟩

/-- Claim C5: an extractor exception is converted into a failed check result
carrying the exception text (never propagated); after a cycle the success and
failure counters have increased by exactly the number of successful and failed
checks, and the dedup map changed only at URLs with a successful (non-empty)
check. -/
theorem failure_isolation :
    (∀ (reg : Registry) (site : SiteConfig) (url : String) (stats : MonitorStats)
        (f : ParserFun) (msg : String),
        reg site.parser = some f → f url site.sizes = ParseOutcome.raises msg →
        monitor_single_url reg site url stats
          = ({ stats with total_checks := stats.total_checks + 1 },
             { site_name := site.name, url := url, success := false,
               result := none, error := some msg }))
    ∧ (∀ (reg : Registry) (now : Nat) (st : EngineState),
        (runMonitoringCycle reg now st).1.stats.successful_checks
            = st.stats.successful_checks + (cycleChecks reg st).countP (fun r => r.success)
        ∧ (runMonitoringCycle reg now st).1.stats.failed_checks
            = st.stats.failed_checks + (cycleChecks reg st).countP (fun r => !r.success))
    ∧ (∀ (reg : Registry) (now : Nat) (st : EngineState) (url : String),
        dget (runMonitoringCycle reg now st).1.lastFinds url
          = (lastNonEmptySizes ((cycleChecks reg st).filter (fun r => r.success)) url).getD
              (dget st.lastFinds url)) := by
  refine ⟨?_, fun reg now st => ⟨cycle_successful_checks reg now st, cycle_failed_checks reg now st⟩,
         fun reg now st url => cycle_dget reg now st url⟩
  intro reg site url stats f msg h1 h2
  simp [monitor_single_url, checkOutcome, h1, h2]

/-- Claim C5, witness: the raising registry at a concrete site and state. -/
theorem failure_isolation_witness :
    monitor_single_url wReg exSite "u" {}
      = ({ ({} : MonitorStats) with total_checks := ({} : MonitorStats).total_checks + 1 },
         { site_name := exSite.name, url := "u", success := false,
           result := none, error := some "boom" })
    ∧ (runMonitoringCycle wReg 0 st0).1.stats.failed_checks
        = st0.stats.failed_checks + (cycleChecks wReg st0).countP (fun r => !r.success) :=
  ⟨failure_isolation.1 wReg exSite "u" {} raisingParser "boom" rfl rfl,
   (failure_isolation.2.1 wReg 0 st0).2⟩

/-- Claim C6, counterexample: the failed result for an unregistered parser id
carries the error string "Parser not found: <id>", not the claimed
"extractor not found: <id>". -/
theorem parser_not_found_message :
    (checkOutcome (fun _ => none) exSite "u").error
        = some ("Parser not found: " ++ exSite.parser)
    ∧ (checkOutcome (fun _ => none) exSite "u").error
        ≠ some ("extractor not found: " ++ exSite.parser) := by decide

/-- Claim C6 (amended): a check against a site whose parser id is not
registered returns (never raises) a failed result whose error string is exactly
"Parser not found: <id>". -/
theorem unregistered_parser_failed_result (reg : Registry) (site : SiteConfig)
    (url : String) (stats : MonitorStats) (h : reg site.parser = none) :
    monitor_single_url reg site url stats
      = ({ stats with total_checks := stats.total_checks + 1 },
         { site_name := site.name, url := url, success := false,
           result := none, error := some ("Parser not found: " ++ site.parser) }) := by
  simp [monitor_single_url, checkOutcome, h]

/-- Claim C6, witness: the empty registry at a concrete site. -/
theorem unregistered_parser_failed_result_witness :
    monitor_single_url (fun _ => none) exSite "u" {}
      = ({ ({} : MonitorStats) with total_checks := ({} : MonitorStats).total_checks + 1 },
         { site_name := exSite.name, url := "u", success := false,
           result := none, error := some ("Parser not found: " ++ exSite.parser) }) :=
  unregistered_parser_failed_result (fun _ => none) exSite "u" {} rfl

/-- Claim C7, counterexample: starting an already-running engine returns
normally with the state untouched and no loop begun (it only logs a warning);
it does not fail with an error, refuting "fails explicitly with an
AlreadyRunning error". -/
theorem start_on_running_returns_ok :
    start_monitoring_entry stRun 7 = Except.ok (stRun, false) := rfl

/-- Claim C7 (amended): `start()` on a running engine is a warning no-op that
returns normally without resetting the stats or beginning a new loop, and
`stop()` on a non-running engine is a warning no-op that returns normally. -/
theorem start_stop_noop_behavior :
    (∀ (st : EngineState) (now : Nat), st.running = true →
        start_monitoring_entry st now = Except.ok (st, false))
    ∧ (∀ st : EngineState, st.running = false →
        stop_monitoring st = Except.ok (st, false)) := by
  constructor
  · intro st now h
    simp [start_monitoring_entry, h]
  · intro st h
    simp [stop_monitoring, h]

/-- Claim C7, witness: a concrete running state and a concrete idle state. -/
theorem start_stop_noop_behavior_witness :
    start_monitoring_entry stRun 3 = Except.ok (stRun, false)
    ∧ stop_monitoring st0 = Except.ok (st0, false) :=
  ⟨start_stop_noop_behavior.1 stRun 3 rfl, start_stop_noop_behavior.2 st0 rfl⟩

/-- Claim C8: a cycle in which no site is enabled returns the engine state
completely unchanged (every stats counter, `last_check_time` and the whole
dedup map included) and emits no notification events. -/
theorem empty_cycle_noop (reg : Registry) (now : Nat) (st : EngineState)
    (h : ∀ s ∈ st.config.sites, s.enabled = false) :
    runMonitoringCycle reg now st = (st, []) := by
  have hnil : st.config.sites.filter (fun s => s.enabled) = [] := by
    rw [List.filter_eq_nil_iff]
    intro s hs
    simp [h s hs]
  simp [runMonitoringCycle, hnil]

/-- Claim C8, witness: a configuration whose only site is disabled. -/
theorem empty_cycle_noop_witness :
    runMonitoringCycle (regOf {"9"}) 0 stD0 = (stD0, []) :=
  empty_cycle_noop (regOf {"9"}) 0 stD0 (by decide)

/-- Claim C9: delivery is attempted for exactly the enabled notifiers, in
configuration order and regardless of any individual notifier's failure, and
`notifications_sent` increases by exactly the number of notifiers whose send
returned `True`; all other counters are untouched. -/
theorem notification_fanout (notifiers : List Notifier) (ev : String × ParseResult)
    (stats : MonitorStats) :
    (sendNotifications notifiers ev stats).2
        = (notifiers.filter (fun n => n.enabled)).map (fun n => n.name)
    ∧ (sendNotifications notifiers ev stats).1.notifications_sent
        = stats.notifications_sent
            + (notifiers.filter (fun n => n.enabled)).countP
                (fun n => match n.send ev with | .ok true => true | _ => false)
    ∧ (sendNotifications notifiers ev stats).1.successful_checks = stats.successful_checks
    ∧ (sendNotifications notifiers ev stats).1.failed_checks = stats.failed_checks
    ∧ (sendNotifications notifiers ev stats).1.sizes_found = stats.sizes_found
    ∧ (sendNotifications notifiers ev stats).1.total_checks = stats.total_checks := by
  by_cases h1 : notifiers.isEmpty
  · have : notifiers = [] := List.isEmpty_iff.mp h1
    subst this
    simp [sendNotifications]
  · by_cases h2 : (notifiers.filter (fun n => n.enabled)).isEmpty
    · have hnil : notifiers.filter (fun n => n.enabled) = [] := List.isEmpty_iff.mp h2
      simp [sendNotifications, h1, h2, hnil]
    · simp [sendNotifications, h1, h2]

/-- Claim C10: checking a configured site manually increments `total_checks` by
the number of the site's URLs and changes nothing else: the other counters, the
dedup map and the notifiers are untouched, and no notification is produced. -/
theorem check_single_site_effect (reg : Registry) (name : String) (st : EngineState)
    (site : SiteConfig)
    (h : st.config.sites.find? (fun s => s.name == name) = some site) :
    check_single_site reg name st
      = Except.ok
          ({ st with stats :=
              { st.stats with total_checks := st.stats.total_checks + site.urls.length } },
           site.urls.map (fun u => checkOutcome reg site u)) := by
  simp only [check_single_site, h]
  rw [runChecks_eq]
  simp [List.map_map, Function.comp]

/-- Claim C10, witness: the concrete single-site configuration. -/
theorem check_single_site_effect_witness :
    check_single_site (regOf {"9"}) "s" st0
      = Except.ok
          ({ st0 with stats :=
              { st0.stats with total_checks := st0.stats.total_checks + exSite.urls.length } },
           exSite.urls.map (fun u => checkOutcome (regOf {"9"}) exSite u)) :=
  check_single_site_effect (regOf {"9"}) "s" st0 exSite rfl
